import Mathlib

/-!
Shallow embedding of the numerical core of the opm-models repository:

* the MPNC primary-variable mapper
  (src/dumux/boxmodels/mpnc/mpncprimaryvariables.hh),
* the brine component property model
  (src/dumux/new_material/components/brine.hh),
* the Cartesian index mapper
  (src/ewoms/common/cartesianindexmapper.hh).

C++ `Scalar` (double) values are modelled as real numbers; fixed-size
vectors indexed by compile-time offsets are modelled as functions out of ℕ.
-/

/- ----------------------------------------------------------------
   Cartesian index mapper (ewoms/common/cartesianindexmapper.hh)
   ---------------------------------------------------------------- -/

namespace Cartesian

/-- Embedding of the loop body of
`CartesianIndexMapper::cartesianIndex(const std::array<int,dimension>& coords)`:
`for(i=1..dim-1) { cartIndex += coords[i]*factor; factor *= dims[i]; }`.
The first list holds the remaining Cartesian dimensions, the second the
remaining coordinates; `acc` is `cartIndex` and `factor` is `factor`. -/
def cartesianIndexLoop : List ℕ → List ℕ → ℕ → ℕ → ℕ
  | d :: dims, c :: coords, acc, factor =>
      cartesianIndexLoop dims coords (acc + c * factor) (factor * d)
  | _, _, acc, _ => acc

/-- Embedding of `CartesianIndexMapper::cartesianIndex(coords)`:
`cartIndex = coords[0]; factor = dims[0];` followed by the loop. -/
def cartesianIndex (dims coords : List ℕ) : ℕ :=
  match dims, coords with
  | d :: dims, c :: coords => cartesianIndexLoop dims coords c d
  | _, _ => 0

/-- Embedding of `CartesianIndexMapper::cartesianCoordinate`.  For
`dimension >= 2` the source runs
`for(d=0..dim-3) { coords[d] = gc % dims[d]; gc /= dims[d]; }` and then sets
`coords[dim-2] = gc % dims[dim-2]; coords[dim-1] = gc / dims[dim-1];`
(the final division really uses `dims[dimension-1]` in the source); for
`dimension == 1` it sets `coords[0] = gc`.  All values in play are
non-negative machine ints, so ℕ division/modulo is faithful. -/
def cartesianCoordinate : List ℕ → ℕ → List ℕ
  | [], _ => []
  | [_], gc => [gc]
  | [dLow, dHigh], gc => [gc % dLow, gc / dHigh]
  | d :: dims, gc => (gc % d) :: cartesianCoordinate dims (gc / d)

/-- The mapper state: the Cartesian dimensions passed to the constructor and
the stored `cartesianIndex_` vector mapping compressed element indices to
Cartesian indices. -/
structure CartesianIndexMapper where
  cartesianDimensions : List ℕ
  compressedToCartesian : List ℕ

/-- Embedding of `computeCartesianSize`:
`size = dims[0]; for(d=1..) size *= dims[d];`. -/
def cartesianSize (m : CartesianIndexMapper) : ℕ :=
  match m.cartesianDimensions with
  | [] => 0
  | d :: dims => dims.foldl (fun a b => a * b) d

/-- Embedding of `cartesianIndex(const int compressedElementIndex)`:
lookup of the stored Cartesian index. -/
def cartesianIndexOf (m : CartesianIndexMapper) (compressedElementIndex : ℕ) : ℕ :=
  m.compressedToCartesian.getD compressedElementIndex 0

/-- Embedding of `cartesianCoordinate(compressedElementIndex, coords)`. -/
def cartesianCoordinateOf (m : CartesianIndexMapper) (compressedElementIndex : ℕ) : List ℕ :=
  cartesianCoordinate m.cartesianDimensions (cartesianIndexOf m compressedElementIndex)

end Cartesian

/- ----------------------------------------------------------------
   MPNC primary variables (dumux/boxmodels/mpnc/mpncprimaryvariables.hh)
   ---------------------------------------------------------------- -/

namespace MPNC

/-- A fluid state: per-phase temperature, pressure and saturation, and
per-phase, per-component fugacity and molarity, exactly the quantities the
primary-variable mapper reads from the `FluidState` template argument. -/
structure FluidState where
  temperature : ℕ → ℝ
  pressure : ℕ → ℝ
  saturation : ℕ → ℝ
  fugacity : ℕ → ℕ → ℝ
  molarity : ℕ → ℕ → ℝ

/-- The compile-time configuration of `MPNCPrimaryVariables`: phase and
component counts and the named offsets `p0Idx`, `S0Idx`, `fug0Idx` of the
`MPNCIndices` property (the indices header itself is not part of the
sources, so the offsets are kept abstract here). -/
structure MPNCIndices where
  numPhases : ℕ
  numComponents : ℕ
  p0Idx : ℕ
  S0Idx : ℕ
  fug0Idx : ℕ

/-- A loop `for (k = 0; k < n; ++k) v[base + k] = val(k);` of slot writes,
with later iterations overwriting earlier ones on any (unintended) overlap,
exactly as sequential stores into a `Dune::FieldVector` would. -/
def writeRange (base : ℕ) (val : ℕ → ℝ) : ℕ → (ℕ → ℝ) → (ℕ → ℝ)
  | 0, v => v
  | n + 1, v => Function.update (writeRange base val n v) (base + n) (val n)

/-- Embedding of `MPNCPrimaryVariables::assignNaive_`.  The energy-module
call comes first in the source; Modelled from the spec: the isothermal
variant of `setPriVarTemperatures` (energy/mpncvolumevariablesenergy.hh is
not part of the sources) writes no temperature slots, so it is the
identity here.  Then the reference-phase fugacities, the reference-phase
pressure and the first `numPhases - 1` saturations are stored. -/
def assignNaive (ix : MPNCIndices) (v : ℕ → ℝ) (fs : FluidState) : ℕ → ℝ :=
  writeRange ix.S0Idx fs.saturation (ix.numPhases - 1)
    (Function.update (writeRange ix.fug0Idx (fs.fugacity 0) ix.numComponents v)
      ix.p0Idx (fs.pressure 0))

/-- Embedding of the inner accumulation loop for one component of the
"global molarities" vector:
`for (phaseIdx = 0..numPhases-1) acc += saturation(phaseIdx)*molarity(phaseIdx, compIdx);`. -/
def molaritySum (fs : FluidState) (compIdx : ℕ) : ℕ → ℝ
  | 0 => 0
  | p + 1 => molaritySum fs compIdx p + fs.saturation p * fs.molarity p compIdx

/-- The global component molarity vector computed by
`assignMassConservative` before calling the flash solver. -/
def globalMolarities (ix : MPNCIndices) (fs : FluidState) : ℕ → ℝ :=
  fun compIdx => molaritySum fs compIdx ix.numPhases

/-- Embedding of `MPNCPrimaryVariables::assignMassConservative` (release
build, so without the debug-only temperature assertion).  Modelled from the
spec: the flash solver (`NcpFlash::solve`, dumux/material/constraintsolvers/
ncpflash.hh is not part of the sources) is an abstract parameter mapping the
seed fluid state, the material-law parameter bundle and the global molarity
vector to an equilibrium fluid state.  In the source the seed `fsFlash` is
`assign`ed from the externally given fluid state before the solve. -/
def assignMassConservative {α : Type} (ix : MPNCIndices)
    (flash : FluidState → α → (ℕ → ℝ) → FluidState)
    (v : ℕ → ℝ) (fs : FluidState) (matParams : α) (isInEquilibrium : Bool) : ℕ → ℝ :=
  if isInEquilibrium then
    assignNaive ix v fs
  else
    assignNaive ix v (flash fs matParams (globalMolarities ix fs))

/-- The precondition checked by the `#ifndef NDEBUG` assertion block:
every phase reports the temperature of phase 0. -/
def temperaturesConsistent (ix : MPNCIndices) (fs : FluidState) : Prop :=
  ∀ p, p < ix.numPhases → fs.temperature p = fs.temperature 0

open Classical in
/-- A debug-build model of `assignMassConservative`: the assertion
`assert(fluidState.temperature(0) == fluidState.temperature(phaseIdx))`
aborts the program when it fails, which is modelled by returning `none`. -/
noncomputable def assignMassConservativeChecked {α : Type} (ix : MPNCIndices)
    (flash : FluidState → α → (ℕ → ℝ) → FluidState)
    (v : ℕ → ℝ) (fs : FluidState) (matParams : α) (isInEquilibrium : Bool) :
    Option (ℕ → ℝ) :=
  if temperaturesConsistent ix fs then
    some (assignMassConservative ix flash v fs matParams isInEquilibrium)
  else
    none

/-- Modelled from the spec: the reconstruction performed by collaborators
outside the core recovers the saturation of the last phase from the stored
ones through the sum-to-one invariant. -/
noncomputable def impliedLastSaturation (ix : MPNCIndices) (v : ℕ → ℝ) : ℝ :=
  1 - ∑ p ∈ Finset.range (ix.numPhases - 1), v (ix.S0Idx + p)

/-- A sample index layout used by concrete witnesses: two phases, two
components, fugacity slots 0 and 1, pressure slot 2, one saturation slot 3. -/
def ixSample : MPNCIndices := ⟨2, 2, 2, 3, 0⟩

/-- The all-zero primary-variable vector, used as initial vector by
concrete witnesses. -/
def vZero : ℕ → ℝ := fun _ => 0

/-- A concrete fluid state used by witnesses. -/
noncomputable def fsA : FluidState :=
  ⟨fun _ => 300, fun p => 100000 + p, fun p => if p = 0 then 3 / 10 else 7 / 10,
    fun _ c => c + 1, fun p c => p + c + 1⟩

/-- A second concrete fluid state: it agrees with `fsA` on everything the
naive extraction reads, but differs in the saturation of the last phase. -/
noncomputable def fsB : FluidState :=
  ⟨fun _ => 300, fun p => 100000 + p, fun p => if p = 0 then 3 / 10 else 1 / 4,
    fun _ c => c + 1, fun p c => p + c + 1⟩

/-- A concrete fluid state whose phases disagree about the temperature,
violating the mapper's debug-only precondition. -/
noncomputable def fsHot : FluidState :=
  ⟨fun p => if p = 1 then 400 else 300, fun p => 100000 + p,
    fun p => if p = 0 then 3 / 10 else 7 / 10, fun _ c => c + 1, fun p c => p + c + 1⟩

/-- A trivial flash solver instance used by concrete witnesses. -/
def flashId : FluidState → Unit → (ℕ → ℝ) → FluidState := fun fs _ _ => fs

end MPNC

/- ----------------------------------------------------------------
   Brine component model (dumux/new_material/components/brine.hh)
   ---------------------------------------------------------------- -/

/-- Modelled from the spec: the pure-water property model `Dune::H2O`
(h2o.hh is not part of the sources).  The spec describes it only as a set
of pure functions of temperature and pressure, so its functions are kept
abstract. -/
structure H2OModel where
  liquidDensity : ℝ → ℝ → ℝ
  liquidEnthalpy : ℝ → ℝ → ℝ
  liquidViscosity : ℝ → ℝ → ℝ
  vaporPressure : ℝ → ℝ

namespace Brine

/-- Embedding of `Brine::vaporPressure`: delegates to the water model. -/
def vaporPressure (w : H2OModel) (T : ℝ) : ℝ := w.vaporPressure T

/-- Embedding of `Brine::liquidDensity`.  The class-wide mutable static
`salinity` is passed explicitly. -/
noncomputable def liquidDensity (w : H2OModel) (salinity T pressure : ℝ) : ℝ :=
  let TempC := T - 273.15
  let pMPa := pressure / 1.0e6
  let rhow := w.liquidDensity T pressure
  rhow +
    1000 * salinity * (
      0.668 +
      0.44 * salinity +
      1.0e-6 * (
        300 * pMPa -
        2400 * pMPa * salinity +
        TempC * (
          80.0 -
          3 * TempC -
          3300 * salinity -
          13 * pMPa +
          47 * pMPa * salinity)))

/-- The saturated-salinity polynomial from `Brine::liquidEnthalpy`:
`S_lSAT = f[0] + f[1]*theta + f[2]*theta^2 + f[3]*theta^3` with the
PALLISER coefficients. -/
noncomputable def saturatedSalinity (T : ℝ) : ℝ :=
  let theta := T - 273.15
  2.63500e-1 + 7.48368e-6 * theta + 1.44611e-6 * theta ^ 2 - 3.80860e-10 * theta ^ 3

/-- The MICHAELIDES coefficient table `a[4][3]` from `Brine::liquidEnthalpy`. -/
def michaelidesCoeff : ℕ → ℕ → ℝ
  | 0, 0 => -9633.6
  | 0, 1 => -4080.0
  | 0, 2 => 286.49
  | 1, 0 => 166.58
  | 1, 1 => 68.577
  | 1, 2 => -4.6856
  | 2, 0 => -0.90963
  | 2, 1 => -0.36524
  | 2, 2 => 0.249667e-1
  | 3, 0 => 0.17965e-2
  | 3, 1 => 0.71924e-3
  | 3, 2 => -0.4900e-4
  | _, _ => 0

/-- Embedding of `Brine::liquidEnthalpy` (DAUBERT/DANNER and MICHAELIDES
correlations; the water enthalpy `hw` comes from the water model). -/
noncomputable def liquidEnthalpy (w : H2OModel) (salinity T p : ℝ) : ℝ :=
  let theta := T - 273.15
  let S_lSAT := saturatedSalinity T
  let S := if S_lSAT < salinity then S_lSAT else salinity
  let hw := w.liquidEnthalpy T p / 1e3
  let h_NaCl :=
    (3.6710e4 * T + 0.5 * 6.2770e1 * T * T - (6.6670e-2 / 3) * T * T * T +
        (2.8000e-5 / 4) * T ^ 4) / 58.44e3 - 2.045698e2
  let m := (1e3 / 58.44) * (S / (1 - S))
  let d_h := ∑ i ∈ Finset.range 4, ∑ j ∈ Finset.range 3,
    michaelidesCoeff i j * theta ^ i * m ^ j
  let delta_h := (4.184 / (1e3 + 58.44 * m)) * d_h
  let h_ls1 := (1 - S) * hw + S * h_NaCl + S * delta_h
  h_ls1 * 1e3

/-- Embedding of `Brine::liquidViscosity`.  The temperature is clamped to
275 K before the correlation (`if(temperature <= 275.) temperature = 275;`);
the water model is not consulted at all, matching the source. -/
noncomputable def liquidViscosity (salinity T pressure : ℝ) : ℝ :=
  let temperature := if T ≤ 275 then (275 : ℝ) else T
  let T_C := temperature - 273.15
  let A := (0.42 * (salinity ^ (0.8 : ℝ) - 0.17) ^ 2 + 0.045) * T_C ^ (0.8 : ℝ)
  let mu_brine := 0.1 + 0.333 * salinity +
    (1.65 + 91.9 * salinity * salinity * salinity) * Real.exp (-A)
  mu_brine / 1000.0

/-- One pass of the Newton loop of `Brine::liquidPressure`, as a step on
the state `(pressure, deltaP)`: if `|pressure*1e-9| < |deltaP|` still
holds, evaluate the residual `f`, the central finite-difference derivative
`df_dp`, and take the update, otherwise leave the state unchanged. -/
noncomputable def nrStep (g : ℝ → ℝ) (density eps : ℝ) (s : ℝ × ℝ) : ℝ × ℝ :=
  if |s.1 * 1e-9| < |s.2| then
    let f := g s.1 - density
    let df_dp := (g (s.1 + eps) - g (s.1 - eps)) / (2 * eps)
    (s.1 + -(f / df_dp), -(f / df_dp))
  else s

/-- Embedding of the `for (int i = 0; i < 5 && ...; ++i)` loop of
`Brine::liquidPressure`, recursing on the remaining iteration budget and
carrying `pressure` and `deltaP`. -/
noncomputable def pressureLoop (g : ℝ → ℝ) (density eps : ℝ) : ℕ → ℝ → ℝ → ℝ
  | 0, pressure, _ => pressure
  | n + 1, pressure, deltaP =>
      if |pressure * 1e-9| < |deltaP| then
        let f := g pressure - density
        let df_dp := (g (pressure + eps) - g (pressure - eps)) / (2 * eps)
        let dP := -(f / df_dp)
        pressureLoop g density eps n (pressure + dP) dP
      else pressure

/-- The same loop as a state transformer: apply `nrStep` to `(p, deltaP)`
as many times as the remaining budget allows. -/
noncomputable def pressureLoopState (g : ℝ → ℝ) (density eps : ℝ) :
    ℕ → ℝ × ℝ → ℝ × ℝ
  | 0, s => s
  | n + 1, s => pressureLoopState g density eps n (nrStep g density eps s)

/-- Embedding of `Brine::liquidPressure`: initial guess 10% above the vapor
pressure, fixed finite-difference step `eps = pressure*1e-7`, sentinel
`deltaP = pressure*2`, and at most 5 Newton iterations. -/
noncomputable def liquidPressure (w : H2OModel) (salinity temperature density : ℝ) : ℝ :=
  let pressure := 1.1 * vaporPressure w temperature
  let eps := pressure * 1e-7
  pressureLoop (liquidDensity w salinity temperature) density eps 5 pressure (pressure * 2)

/-- The final `(pressure, deltaP)` state of the Newton loop of
`Brine::liquidPressure` after the iteration budget; its first component is
what the source returns, its second reveals the size of the last step. -/
noncomputable def liquidPressureFinalState (w : H2OModel)
    (salinity temperature density : ℝ) : ℝ × ℝ :=
  let pressure := 1.1 * vaporPressure w temperature
  let eps := pressure * 1e-7
  pressureLoopState (liquidDensity w salinity temperature) density eps 5
    (pressure, pressure * 2)

/-- The pressure-from-density inversion exactly as the spec words it:
Newton-Raphson started from `P0 = 1.1 * vaporPressure(T)`, the derivative
of `f(P) = density(T,P) - rho` estimated by a central finite difference
with the fixed step `P0 * 1e-7`, the iterate sequence built forwards from
`P0` (with the sentinel previous step `P0 * 2`), stopping early as soon as
the magnitude of the last step no longer exceeds `1e-9` times the current
pressure, and in any case after 5 update steps. -/
noncomputable def specNewtonState (g : ℝ → ℝ) (density P0 : ℝ) : ℕ → ℝ × ℝ
  | 0 => (P0, P0 * 2)
  | k + 1 => nrStep g density (P0 * 1e-7) (specNewtonState g density P0 k)

/-- The pressure the spec's description of the algorithm yields: the
pressure component after the 5-step iteration budget. -/
noncomputable def specPressureFromDensity (vap : ℝ → ℝ) (dens : ℝ → ℝ → ℝ)
    (T density : ℝ) : ℝ :=
  (specNewtonState (dens T) density (1.1 * vap T) 5).1

/-- The all-zero water model, a concrete instantiation used to witness that
brine properties do not reduce to the water model. -/
def waterZero : H2OModel := ⟨fun _ _ => 0, fun _ _ => 0, fun _ _ => 0, fun _ => 0⟩

/-- A water model whose liquid density is `p^2` and whose vapor pressure is
the constant 10: on it the Newton inversion of `Brine::liquidPressure`
exhausts its 5-step budget without meeting the step tolerance. -/
def waterQuad : H2OModel := ⟨fun _ p => p * p, fun _ _ => 0, fun _ _ => 0, fun _ => 10⟩

end Brine

/- ----------------------------------------------------------------
   Helper lemmas
   ---------------------------------------------------------------- -/

namespace MPNC

lemma writeRange_apply_lt (base : ℕ) (val : ℕ → ℝ) :
    ∀ (n : ℕ) (v : ℕ → ℝ) (k : ℕ), k < n → writeRange base val n v (base + k) = val k := by
  intro n
  induction n with
  | zero => intro v k hk; omega
  | succ n ih =>
    intro v k hk
    by_cases h : k = n
    · subst h
      simp only [writeRange, Function.update_same]
    · have hne : base + k ≠ base + n := by omega
      simp only [writeRange]
      rw [Function.update_noteq hne]
      exact ih v k (by omega)

lemma writeRange_apply_ne (base : ℕ) (val : ℕ → ℝ) :
    ∀ (n : ℕ) (v : ℕ → ℝ) (j : ℕ), (∀ k, k < n → j ≠ base + k) →
      writeRange base val n v j = v j := by
  intro n
  induction n with
  | zero => intro v j _; rfl
  | succ n ih =>
    intro v j hj
    simp only [writeRange]
    rw [Function.update_noteq (hj n (by omega))]
    exact ih v j (fun k hk => hj k (by omega))

lemma writeRange_congr (base : ℕ) :
    ∀ (n : ℕ) (val val' : ℕ → ℝ) (v : ℕ → ℝ), (∀ k, k < n → val k = val' k) →
      writeRange base val n v = writeRange base val' n v := by
  intro n
  induction n with
  | zero => intro val val' v _; rfl
  | succ n ih =>
    intro val val' v h
    simp only [writeRange]
    rw [ih val val' v (fun k hk => h k (by omega)), h n (by omega)]

lemma molaritySum_eq (fs : FluidState) (c : ℕ) :
    ∀ n, molaritySum fs c n = ∑ p ∈ Finset.range n, fs.saturation p * fs.molarity p c := by
  intro n
  induction n with
  | zero => simp [molaritySum]
  | succ n ih => rw [Finset.sum_range_succ, ← ih]; rfl

end MPNC

namespace Brine

lemma pressureLoopState_fixed (g : ℝ → ℝ) (d e : ℝ) (s : ℝ × ℝ)
    (h : nrStep g d e s = s) : ∀ n, pressureLoopState g d e n s = s := by
  intro n
  induction n with
  | zero => rfl
  | succ n ih => simp only [pressureLoopState]; rw [h]; exact ih

lemma pressureLoop_eq_state (g : ℝ → ℝ) (d e : ℝ) :
    ∀ (n : ℕ) (p dp : ℝ), pressureLoop g d e n p dp = (pressureLoopState g d e n (p, dp)).1 := by
  intro n
  induction n with
  | zero => intro p dp; rfl
  | succ n ih =>
    intro p dp
    by_cases h : |p * 1e-9| < |dp|
    · have hL : pressureLoop g d e (n + 1) p dp =
          pressureLoop g d e n
            (p + -((g p - d) / ((g (p + e) - g (p - e)) / (2 * e))))
            (-((g p - d) / ((g (p + e) - g (p - e)) / (2 * e)))) := by
        simp only [pressureLoop]
        rw [if_pos h]
      have hstep : nrStep g d e (p, dp) =
          (p + -((g p - d) / ((g (p + e) - g (p - e)) / (2 * e))),
            -((g p - d) / ((g (p + e) - g (p - e)) / (2 * e)))) := by
        simp only [nrStep]
        rw [if_pos h]
      have hR : pressureLoopState g d e (n + 1) (p, dp) =
          pressureLoopState g d e n
            (p + -((g p - d) / ((g (p + e) - g (p - e)) / (2 * e))),
              -((g p - d) / ((g (p + e) - g (p - e)) / (2 * e)))) := by
        simp only [pressureLoopState]
        rw [hstep]
      rw [hL, hR]
      exact ih _ _
    · have hL : pressureLoop g d e (n + 1) p dp = p := by
        simp only [pressureLoop]
        rw [if_neg h]
      have hfix : nrStep g d e (p, dp) = (p, dp) := by
        simp only [nrStep]
        rw [if_neg h]
      have hR : pressureLoopState g d e (n + 1) (p, dp) = (p, dp) := by
        simp only [pressureLoopState]
        rw [hfix]
        exact pressureLoopState_fixed g d e (p, dp) hfix n
      rw [hL, hR]

lemma pressureLoopState_comm (g : ℝ → ℝ) (d e : ℝ) :
    ∀ (n : ℕ) (s : ℝ × ℝ), pressureLoopState g d e n (nrStep g d e s) =
      nrStep g d e (pressureLoopState g d e n s) := by
  intro n
  induction n with
  | zero => intro s; rfl
  | succ n ih =>
    intro s
    simp only [pressureLoopState]
    rw [ih]

lemma specNewtonState_eq (g : ℝ → ℝ) (d P0 : ℝ) :
    ∀ n, specNewtonState g d P0 n = pressureLoopState g d (P0 * 1e-7) n (P0, P0 * 2) := by
  intro n
  induction n with
  | zero => rfl
  | succ n ih =>
    simp only [specNewtonState, pressureLoopState]
    rw [ih, pressureLoopState_comm]

end Brine

/- ----------------------------------------------------------------
   Claim theorems
   ---------------------------------------------------------------- -/

/-- C10: decoding a stored Cartesian index to IJK coordinates and
re-encoding them is claimed to give back the original index for every grid
dimension and positive dimension array.  The code divides the last
coordinate by `dims[dimension-1]` instead of `dims[dimension-2]`, so for
the mapper with dimensions 1×2×3 and stored index 5 (true IJK (0,1,2),
in range since the Cartesian size is 6) it decodes to (0,1,1), which
re-encodes to 3, not 5. -/
theorem cartesian_roundtrip_fails_dims123 :
    Cartesian.cartesianIndexOf ⟨[1, 2, 3], [5]⟩ 0 = 5 ∧
    5 < Cartesian.cartesianSize ⟨[1, 2, 3], [5]⟩ ∧
    Cartesian.cartesianCoordinateOf ⟨[1, 2, 3], [5]⟩ 0 = [0, 1, 1] ∧
    Cartesian.cartesianIndex [1, 2, 3]
      (Cartesian.cartesianCoordinateOf ⟨[1, 2, 3], [5]⟩ 0) = 3 ∧
    Cartesian.cartesianIndex [1, 2, 3] [0, 1, 2] = 5 := by
  decide

/-- C9: for every pressure and every temperature at most 275 K the brine
liquid viscosity is evaluated with the temperature clamped to the floor,
so it coincides with the value at 275 K. -/
theorem brine_liquidViscosity_clamped_below_275 (salinity T pressure : ℝ)
    (h : T ≤ 275) :
    Brine.liquidViscosity salinity T pressure =
      Brine.liquidViscosity salinity 275 pressure := by
  simp only [Brine.liquidViscosity]
  rw [if_pos h, if_pos (le_refl (275 : ℝ))]

/-- Witness for C9 at salinity 0.1 (the static default), T = 270 K. -/
theorem brine_liquidViscosity_clamped_witness :
    (270 : ℝ) ≤ 275 ∧
    Brine.liquidViscosity 0.1 270 100000 = Brine.liquidViscosity 0.1 275 100000 :=
  ⟨by norm_num, brine_liquidViscosity_clamped_below_275 0.1 270 100000 (by norm_num)⟩

/-- C7: the equal-phase-temperature precondition is only a debug-build
assertion.  For every fluid state whose phases disagree about the
temperature, the debug model aborts (`none`), while the release-build
function silently proceeds with the normal fast-path/flash-path writes. -/
theorem mpnc_temperature_check_debug_only {α : Type} (ix : MPNC.MPNCIndices)
    (flash : MPNC.FluidState → α → (ℕ → ℝ) → MPNC.FluidState)
    (v : ℕ → ℝ) (fs : MPNC.FluidState) (matParams : α) (isInEquilibrium : Bool)
    (h : ¬ MPNC.temperaturesConsistent ix fs) :
    MPNC.assignMassConservativeChecked ix flash v fs matParams isInEquilibrium = none ∧
    MPNC.assignMassConservative ix flash v fs matParams isInEquilibrium =
      (if isInEquilibrium then MPNC.assignNaive ix v fs
       else MPNC.assignNaive ix v
         (flash fs matParams (MPNC.globalMolarities ix fs))) := by
  constructor
  · simp only [MPNC.assignMassConservativeChecked]
    rw [if_neg h]
  · rfl

/-- Witness for C7: a two-phase state with temperatures 300 K and 400 K is
rejected by the debug assertion but processed normally in release mode. -/
theorem mpnc_temperature_check_debug_only_witness :
    MPNC.assignMassConservativeChecked MPNC.ixSample MPNC.flashId MPNC.vZero
      MPNC.fsHot () true = none ∧
    MPNC.assignMassConservative MPNC.ixSample MPNC.flashId MPNC.vZero
      MPNC.fsHot () true = MPNC.assignNaive MPNC.ixSample MPNC.vZero MPNC.fsHot := by
  have hbad : ¬ MPNC.temperaturesConsistent MPNC.ixSample MPNC.fsHot := by
    intro hcon
    have h1 := hcon 1 (by norm_num [MPNC.ixSample])
    simp [MPNC.fsHot] at h1
  have h := mpnc_temperature_check_debug_only MPNC.ixSample MPNC.flashId MPNC.vZero
    MPNC.fsHot () true hbad
  exact ⟨h.1, h.2⟩

/-- C2: with `isInEquilibrium = false` the mapper computes the global
molarity vector (for each component the sum over phases of saturation
times molarity), seeds the flash solver with the given fluid state, invokes
it with the material-law parameters and that vector, and applies the naive
slot extraction to the solver's result. -/
theorem mpnc_flash_path {α : Type} (ix : MPNC.MPNCIndices)
    (flash : MPNC.FluidState → α → (ℕ → ℝ) → MPNC.FluidState)
    (v : ℕ → ℝ) (fs : MPNC.FluidState) (matParams : α) :
    MPNC.assignMassConservative ix flash v fs matParams false =
      MPNC.assignNaive ix v (flash fs matParams (MPNC.globalMolarities ix fs)) ∧
    ∀ c, MPNC.globalMolarities ix fs c =
      ∑ p ∈ Finset.range ix.numPhases, fs.saturation p * fs.molarity p c := by
  refine ⟨rfl, fun c => ?_⟩
  exact MPNC.molaritySum_eq fs c ix.numPhases

/-- C1: with `isInEquilibrium = true` the mapper copies the reference-phase
fugacity of each component, the reference-phase pressure and the first
`numPhases - 1` saturations unchanged into their named offsets, touches no
other slot, and never invokes the flash solver; reading the slots back
recovers the original values exactly.  The hypotheses state that the named
offset blocks do not overlap, which the `MPNCIndices` layout guarantees. -/
theorem mpnc_equilibrium_fast_path {α : Type} (ix : MPNC.MPNCIndices)
    (flash : MPNC.FluidState → α → (ℕ → ℝ) → MPNC.FluidState)
    (v : ℕ → ℝ) (fs : MPNC.FluidState) (matParams : α)
    (hpf : ∀ c, c < ix.numComponents → ix.fug0Idx + c ≠ ix.p0Idx)
    (hsf : ∀ c, c < ix.numComponents → ∀ p, p < ix.numPhases - 1 →
      ix.fug0Idx + c ≠ ix.S0Idx + p)
    (hsp : ∀ p, p < ix.numPhases - 1 → ix.S0Idx + p ≠ ix.p0Idx) :
    (∀ c, c < ix.numComponents →
      MPNC.assignMassConservative ix flash v fs matParams true (ix.fug0Idx + c) =
        fs.fugacity 0 c) ∧
    MPNC.assignMassConservative ix flash v fs matParams true ix.p0Idx =
      fs.pressure 0 ∧
    (∀ p, p < ix.numPhases - 1 →
      MPNC.assignMassConservative ix flash v fs matParams true (ix.S0Idx + p) =
        fs.saturation p) ∧
    (∀ flash' : MPNC.FluidState → α → (ℕ → ℝ) → MPNC.FluidState,
      MPNC.assignMassConservative ix flash' v fs matParams true =
        MPNC.assignMassConservative ix flash v fs matParams true) ∧
    (∀ j, (∀ c, c < ix.numComponents → j ≠ ix.fug0Idx + c) → j ≠ ix.p0Idx →
      (∀ p, p < ix.numPhases - 1 → j ≠ ix.S0Idx + p) →
      MPNC.assignMassConservative ix flash v fs matParams true j = v j) := by
  have hunf : MPNC.assignMassConservative ix flash v fs matParams true =
      MPNC.assignNaive ix v fs := rfl
  refine ⟨?_, ?_, ?_, ?_, ?_⟩
  · intro c hc
    rw [hunf]
    unfold MPNC.assignNaive
    rw [MPNC.writeRange_apply_ne _ _ _ _ _ (fun p hp => hsf c hc p hp)]
    rw [Function.update_noteq (hpf c hc)]
    exact MPNC.writeRange_apply_lt _ _ _ _ c hc
  · rw [hunf]
    unfold MPNC.assignNaive
    rw [MPNC.writeRange_apply_ne _ _ _ _ _ (fun p hp => (hsp p hp).symm)]
    exact Function.update_same _ _ _
  · intro p hp
    rw [hunf]
    unfold MPNC.assignNaive
    exact MPNC.writeRange_apply_lt _ _ _ _ p hp
  · intro flash'
    rfl
  · intro j hjf hjp hjs
    rw [hunf]
    unfold MPNC.assignNaive
    rw [MPNC.writeRange_apply_ne _ _ _ _ _ hjs]
    rw [Function.update_noteq hjp]
    exact MPNC.writeRange_apply_ne _ _ _ _ _ (fun c hc => hjf c hc)

/-- Witness for C1 at the sample layout (fugacities at 0 and 1, pressure at
2, one stored saturation at 3, slot 7 outside the layout). -/
theorem mpnc_equilibrium_fast_path_witness :
    MPNC.assignMassConservative MPNC.ixSample MPNC.flashId MPNC.vZero MPNC.fsA
      () true 0 = MPNC.fsA.fugacity 0 0 ∧
    MPNC.assignMassConservative MPNC.ixSample MPNC.flashId MPNC.vZero MPNC.fsA
      () true 2 = MPNC.fsA.pressure 0 ∧
    MPNC.assignMassConservative MPNC.ixSample MPNC.flashId MPNC.vZero MPNC.fsA
      () true 3 = MPNC.fsA.saturation 0 ∧
    MPNC.assignMassConservative MPNC.ixSample MPNC.flashId MPNC.vZero MPNC.fsA
      () true 7 = MPNC.vZero 7 := by
  have h := mpnc_equilibrium_fast_path MPNC.ixSample MPNC.flashId MPNC.vZero
    MPNC.fsA ()
    (by intro c hc; simp only [MPNC.ixSample] at hc ⊢; omega)
    (by intro c hc p hp; simp only [MPNC.ixSample] at hc hp ⊢; omega)
    (by intro p hp; simp only [MPNC.ixSample] at hp ⊢; omega)
  exact ⟨h.1 0 (by norm_num [MPNC.ixSample]), h.2.1,
    h.2.2.1 0 (by norm_num [MPNC.ixSample]),
    h.2.2.2.2 7 (by intro c hc; simp only [MPNC.ixSample] at hc ⊢; omega)
      (by norm_num [MPNC.ixSample])
      (by intro p hp; simp only [MPNC.ixSample] at hp ⊢; omega)⟩

/-- C8: the naive extraction writes only the fixed layout (the component
fugacity block, the reference pressure slot, and exactly `numPhases - 1`
saturation slots); its output never depends on the saturation of the last
phase, which is instead implied by the sum-to-one invariant via the
reconstruction `impliedLastSaturation`. -/
theorem mpnc_fixed_layout_last_saturation (ix : MPNC.MPNCIndices)
    (v : ℕ → ℝ) (fs fs' : MPNC.FluidState) :
    (∀ j, (∀ c, c < ix.numComponents → j ≠ ix.fug0Idx + c) → j ≠ ix.p0Idx →
      (∀ p, p < ix.numPhases - 1 → j ≠ ix.S0Idx + p) →
      MPNC.assignNaive ix v fs j = v j) ∧
    ((∀ c, fs'.fugacity 0 c = fs.fugacity 0 c) → fs'.pressure 0 = fs.pressure 0 →
      (∀ p, p < ix.numPhases - 1 → fs'.saturation p = fs.saturation p) →
      MPNC.assignNaive ix v fs' = MPNC.assignNaive ix v fs) ∧
    (0 < ix.numPhases →
      (∑ p ∈ Finset.range ix.numPhases, fs.saturation p) = 1 →
      MPNC.impliedLastSaturation ix (MPNC.assignNaive ix v fs) =
        fs.saturation (ix.numPhases - 1)) := by
  refine ⟨?_, ?_, ?_⟩
  · intro j hjf hjp hjs
    unfold MPNC.assignNaive
    rw [MPNC.writeRange_apply_ne _ _ _ _ _ hjs]
    rw [Function.update_noteq hjp]
    exact MPNC.writeRange_apply_ne _ _ _ _ _ hjf
  · intro hfug hp hsat
    unfold MPNC.assignNaive
    rw [MPNC.writeRange_congr _ _ _ _ _ hsat, hp,
      MPNC.writeRange_congr _ _ _ _ _ (fun c _ => hfug c)]
  · intro hpos hsum
    unfold MPNC.impliedLastSaturation
    have hread : ∀ p ∈ Finset.range (ix.numPhases - 1),
        MPNC.assignNaive ix v fs (ix.S0Idx + p) = fs.saturation p := by
      intro p hp
      unfold MPNC.assignNaive
      exact MPNC.writeRange_apply_lt _ _ _ _ p (Finset.mem_range.mp hp)
    rw [Finset.sum_congr rfl hread]
    have hsplit : ix.numPhases = (ix.numPhases - 1) + 1 := by omega
    rw [hsplit, Finset.sum_range_succ] at hsum
    linarith

/-- Witness for C8: with the sample layout, slot 7 is untouched, a state
differing only in the last-phase saturation yields the same vector, and the
implied last saturation of a sum-to-one state is recovered. -/
theorem mpnc_fixed_layout_witness :
    MPNC.assignNaive MPNC.ixSample MPNC.vZero MPNC.fsA 7 = MPNC.vZero 7 ∧
    MPNC.assignNaive MPNC.ixSample MPNC.vZero MPNC.fsB =
      MPNC.assignNaive MPNC.ixSample MPNC.vZero MPNC.fsA ∧
    MPNC.impliedLastSaturation MPNC.ixSample
      (MPNC.assignNaive MPNC.ixSample MPNC.vZero MPNC.fsA) =
      MPNC.fsA.saturation 1 := by
  have h := mpnc_fixed_layout_last_saturation MPNC.ixSample MPNC.vZero
    MPNC.fsA MPNC.fsB
  refine ⟨h.1 7 (by intro c hc; simp only [MPNC.ixSample] at hc ⊢; omega)
      (by norm_num [MPNC.ixSample])
      (by intro p hp; simp only [MPNC.ixSample] at hp ⊢; omega),
    h.2.1 (by intro c; rfl) rfl
      (by intro p hp; simp only [MPNC.ixSample] at hp
          interval_cases p
          rfl),
    h.2.2 (by norm_num [MPNC.ixSample])
      (by simp only [MPNC.ixSample, MPNC.fsA, Finset.sum_range_succ,
            Finset.sum_range_zero]
          norm_num)⟩

/-- C3: `Brine::liquidPressure` is exactly the Newton-Raphson inversion the
spec describes: initial guess `1.1 * vaporPressure(T)`, central
finite-difference derivative with the fixed step `P0 * 1e-7`, at most 5
update steps `P <- P - f(P)/f'(P)` on `f(P) = liquidDensity(T,P) - rho`,
stopping early as soon as the magnitude of the last step `deltaP` no longer
exceeds `1e-9` times the magnitude of the current pressure. -/
theorem brine_liquidPressure_is_spec_newton (w : H2OModel)
    (salinity T density : ℝ) :
    Brine.liquidPressure w salinity T density =
      Brine.specPressureFromDensity w.vaporPressure
        (Brine.liquidDensity w salinity) T density := by
  simp only [Brine.liquidPressure, Brine.specPressureFromDensity, Brine.vaporPressure]
  rw [Brine.pressureLoop_eq_state, Brine.specNewtonState_eq]

/-- C5 counterexample: the claim that at salinity 0 the brine model returns
exactly the water model's liquid density, enthalpy and viscosity for every
temperature and pressure is false.  `Brine::liquidViscosity` never consults
the water model (here instantiated with the all-zero water model, at
T = 293.15 K, P = 1e5 Pa), and `Brine::liquidEnthalpy` engages the
saturated-salinity regularization even at salinity 0 once `S_lSAT(T)` turns
negative (T = 5273.15 K), making the working salinity negative. -/
theorem brine_salinity_zero_counterexample :
    Brine.liquidViscosity 0 293.15 100000 ≠
      Brine.waterZero.liquidViscosity 293.15 100000 ∧
    Brine.liquidEnthalpy Brine.waterZero 0 5273.15 100000 ≠
      Brine.waterZero.liquidEnthalpy 5273.15 100000 := by
  constructor
  · simp only [Brine.liquidViscosity, Brine.waterZero]
    apply ne_of_gt
    positivity
  · have hlt : Brine.saturatedSalinity 5273.15 < 0 := by
      norm_num [Brine.saturatedSalinity]
    simp only [Brine.liquidEnthalpy, Brine.waterZero]
    rw [if_pos hlt]
    simp only [Finset.sum_range_succ, Finset.sum_range_zero, Brine.michaelidesCoeff]
    norm_num [Brine.saturatedSalinity]

/-- C5 (amended): at salinity 0 the brine liquid density equals the water
model's density for all (T,P); the brine liquid enthalpy equals the water
model's enthalpy whenever the saturated-salinity polynomial `S_lSAT(T)` is
non-negative (true for all physically meaningful temperatures, up to about
5250 K); the brine liquid viscosity does not reduce to the water model but
equals brine's own correlation with the salinity terms dropped. -/
theorem brine_salinity_zero_behaviour (w : H2OModel) (T p : ℝ) :
    Brine.liquidDensity w 0 T p = w.liquidDensity T p ∧
    (0 ≤ Brine.saturatedSalinity T →
      Brine.liquidEnthalpy w 0 T p = w.liquidEnthalpy T p) ∧
    Brine.liquidViscosity 0 T p =
      (0.1 + 1.65 * Real.exp (-(0.057138 *
        ((if T ≤ 275 then (275 : ℝ) else T) - 273.15) ^ (0.8 : ℝ)))) / 1000 := by
  refine ⟨?_, ?_, ?_⟩
  · simp only [Brine.liquidDensity]
    ring
  · intro h
    simp only [Brine.liquidEnthalpy]
    rw [if_neg (by linarith)]
    norm_num
  · simp only [Brine.liquidViscosity]
    rw [Real.zero_rpow (by norm_num)]
    norm_num

/-- Witness for C5's amended theorem at the all-zero water model,
T = 293.15 K, P = 1e5 Pa, where the enthalpy hypothesis holds. -/
theorem brine_salinity_zero_behaviour_witness :
    (0 : ℝ) ≤ Brine.saturatedSalinity 293.15 ∧
    Brine.liquidDensity Brine.waterZero 0 293.15 100000 =
      Brine.waterZero.liquidDensity 293.15 100000 ∧
    Brine.liquidEnthalpy Brine.waterZero 0 293.15 100000 =
      Brine.waterZero.liquidEnthalpy 293.15 100000 :=
  ⟨by norm_num [Brine.saturatedSalinity],
    (brine_salinity_zero_behaviour Brine.waterZero 293.15 100000).1,
    (brine_salinity_zero_behaviour Brine.waterZero 293.15 100000).2.1
      (by norm_num [Brine.saturatedSalinity])⟩

lemma pressureLoopState_succ_eq (g : ℝ → ℝ) (d e : ℝ) (n : ℕ) (s : ℝ × ℝ) :
    Brine.pressureLoopState g d e (n + 1) s =
      Brine.pressureLoopState g d e n (Brine.nrStep g d e s) := rfl

lemma quad_density_eval (x : ℝ) :
    Brine.liquidDensity Brine.waterQuad 0 300 x = x * x := by
  simp only [Brine.liquidDensity, Brine.waterQuad]
  ring

lemma quad_newton_step (p dp : ℝ) (hp : p ≠ 0) (h : |p * 1e-9| < |dp|) :
    Brine.nrStep (Brine.liquidDensity Brine.waterQuad 0 300) 0 (11 * 1e-7) (p, dp) =
      (p / 2, -(p / 2)) := by
  simp only [Brine.nrStep]
  rw [if_pos h]
  simp only [quad_density_eval]
  have hden : ((p + 11 * 1e-7) * (p + 11 * 1e-7) -
      (p - 11 * 1e-7) * (p - 11 * 1e-7)) / (2 * (11 * 1e-7)) = 2 * p := by
    rw [div_eq_iff (by norm_num : (2 : ℝ) * (11 * 1e-7) ≠ 0)]
    ring
  rw [hden]
  have hq : (p * p - 0) / (2 * p) = p / 2 := by
    field_simp
    ring
  rw [hq]
  simp only [Prod.mk.injEq]
  constructor
  · ring
  · trivial

/-- C6: `Brine::liquidPressure` returns the bare first component of the
final Newton state — the last iterate — and exposes nothing about whether
the step tolerance was met; and there are inputs (water density `p^2`,
vapor pressure 10, target density 0) on which the 5-step budget is
exhausted while the final step is still far larger than `1e-9` times the
final pressure, which the returned plain value does not reveal. -/
theorem brine_liquidPressure_no_convergence_signal :
    (∀ (w : H2OModel) (salinity T density : ℝ),
      Brine.liquidPressure w salinity T density =
        (Brine.liquidPressureFinalState w salinity T density).1) ∧
    (∃ (w : H2OModel) (salinity T density : ℝ),
      |(Brine.liquidPressureFinalState w salinity T density).1 * 1e-9| <
        |(Brine.liquidPressureFinalState w salinity T density).2|) := by
  constructor
  · intro w salinity T density
    simp only [Brine.liquidPressure, Brine.liquidPressureFinalState]
    exact Brine.pressureLoop_eq_state _ _ _ 5 _ _
  · refine ⟨Brine.waterQuad, 0, 300, 0, ?_⟩
    have c1 : |(11 : ℝ) * 1e-9| < |(22 : ℝ)| := by
      rw [abs_of_pos (by norm_num : (0 : ℝ) < 11 * 1e-9),
        abs_of_pos (by norm_num : (0 : ℝ) < 22)]
      norm_num
    have c2 : |(11 / 2 : ℝ) * 1e-9| < |(-(11 / 2) : ℝ)| := by
      rw [abs_of_pos (by norm_num : (0 : ℝ) < 11 / 2 * 1e-9),
        abs_of_neg (by norm_num : (-(11 / 2) : ℝ) < 0)]
      norm_num
    have c3 : |(11 / 4 : ℝ) * 1e-9| < |(-(11 / 4) : ℝ)| := by
      rw [abs_of_pos (by norm_num : (0 : ℝ) < 11 / 4 * 1e-9),
        abs_of_neg (by norm_num : (-(11 / 4) : ℝ) < 0)]
      norm_num
    have c4 : |(11 / 8 : ℝ) * 1e-9| < |(-(11 / 8) : ℝ)| := by
      rw [abs_of_pos (by norm_num : (0 : ℝ) < 11 / 8 * 1e-9),
        abs_of_neg (by norm_num : (-(11 / 8) : ℝ) < 0)]
      norm_num
    have c5 : |(11 / 16 : ℝ) * 1e-9| < |(-(11 / 16) : ℝ)| := by
      rw [abs_of_pos (by norm_num : (0 : ℝ) < 11 / 16 * 1e-9),
        abs_of_neg (by norm_num : (-(11 / 16) : ℝ) < 0)]
      norm_num
    have h1 : Brine.nrStep (Brine.liquidDensity Brine.waterQuad 0 300) 0
        (11 * 1e-7) (11, 22) = (11 / 2, -(11 / 2)) :=
      quad_newton_step 11 22 (by norm_num) c1
    have h2 : Brine.nrStep (Brine.liquidDensity Brine.waterQuad 0 300) 0
        (11 * 1e-7) (11 / 2, -(11 / 2)) = (11 / 4, -(11 / 4)) := by
      rw [quad_newton_step (11 / 2) (-(11 / 2)) (by norm_num) c2]
      norm_num
    have h3 : Brine.nrStep (Brine.liquidDensity Brine.waterQuad 0 300) 0
        (11 * 1e-7) (11 / 4, -(11 / 4)) = (11 / 8, -(11 / 8)) := by
      rw [quad_newton_step (11 / 4) (-(11 / 4)) (by norm_num) c3]
      norm_num
    have h4 : Brine.nrStep (Brine.liquidDensity Brine.waterQuad 0 300) 0
        (11 * 1e-7) (11 / 8, -(11 / 8)) = (11 / 16, -(11 / 16)) := by
      rw [quad_newton_step (11 / 8) (-(11 / 8)) (by norm_num) c4]
      norm_num
    have h5 : Brine.nrStep (Brine.liquidDensity Brine.waterQuad 0 300) 0
        (11 * 1e-7) (11 / 16, -(11 / 16)) = (11 / 32, -(11 / 32)) := by
      rw [quad_newton_step (11 / 16) (-(11 / 16)) (by norm_num) c5]
      norm_num
    have hval : Brine.liquidPressureFinalState Brine.waterQuad 0 300 0 =
        (11 / 32, -(11 / 32)) := by
      simp only [Brine.liquidPressureFinalState]
      rw [show Brine.vaporPressure Brine.waterQuad 300 = 10 from rfl]
      rw [show (1.1 : ℝ) * 10 = 11 from by norm_num]
      rw [show (11 : ℝ) * 2 = 22 from by norm_num]
      calc Brine.pressureLoopState (Brine.liquidDensity Brine.waterQuad 0 300) 0
            (11 * 1e-7) 5 (11, 22)
          = Brine.pressureLoopState (Brine.liquidDensity Brine.waterQuad 0 300) 0
            (11 * 1e-7) 4 (11 / 2, -(11 / 2)) := by
            rw [pressureLoopState_succ_eq _ _ _ 4 (11, 22), h1]
        _ = Brine.pressureLoopState (Brine.liquidDensity Brine.waterQuad 0 300) 0
            (11 * 1e-7) 3 (11 / 4, -(11 / 4)) := by
            rw [pressureLoopState_succ_eq _ _ _ 3 (11 / 2, -(11 / 2)), h2]
        _ = Brine.pressureLoopState (Brine.liquidDensity Brine.waterQuad 0 300) 0
            (11 * 1e-7) 2 (11 / 8, -(11 / 8)) := by
            rw [pressureLoopState_succ_eq _ _ _ 2 (11 / 4, -(11 / 4)), h3]
        _ = Brine.pressureLoopState (Brine.liquidDensity Brine.waterQuad 0 300) 0
            (11 * 1e-7) 1 (11 / 16, -(11 / 16)) := by
            rw [pressureLoopState_succ_eq _ _ _ 1 (11 / 8, -(11 / 8)), h4]
        _ = Brine.pressureLoopState (Brine.liquidDensity Brine.waterQuad 0 300) 0
            (11 * 1e-7) 0 (11 / 32, -(11 / 32)) := by
            rw [pressureLoopState_succ_eq _ _ _ 0 (11 / 16, -(11 / 16)), h5]
        _ = (11 / 32, -(11 / 32)) := rfl
    rw [hval]
    rw [abs_of_pos (by norm_num : (0 : ℝ) < (11 / 32 : ℝ) * 1e-9),
      abs_of_neg (by norm_num : (-(11 / 32) : ℝ) < 0)]
    norm_num
